import Mathlib

/-!
Shallow embedding of the Tiendo front-end scripting layer, the page-scoped
scripts of a small storefront.  The definitions below translate the
relevant source functions of `static/js/admin_index.js`, `static/js/header.js`,
`static/js/register.js` and the product-detail page controller; the theorems
settle the specification claims about them.
-/

namespace Tiendo

/-- Outcome of a `fetch` call: the promise either resolves with an HTTP
response (any status, carrying the response text) or rejects with an error
message (network failure). -/
inductive FetchOutcome where
  | response (status : Nat) (body : String)
  | reject (msg : String)
deriving DecidableEq

/-- `Response.ok` of the Fetch API: status in the inclusive range 200–299. -/
def respOk (status : Nat) : Bool := 200 ≤ status && status ≤ 299

/-- The redirect target assigned to `window.location.href` throughout
`admin_index.js`. -/
def adminLoginPath : String := "/admin/login"

/-- `checkSession` of `admin_index.js`: fetches `/admin/check-session`;
navigates to `/admin/login` when the response is not ok, and also on a
rejected fetch (the catch block).  `some target` models the assignment to
`window.location.href`; `none` models staying on the page. -/
def checkSession : FetchOutcome → Option String
  | .response status _ => if respOk status then none else some adminLoginPath
  | .reject _ => some adminLoginPath

/-- Effect of one admin menu-item click once its module fetch settles:
an optional navigation plus an optional replacement of the content area's
inner HTML. -/
structure ModuleResult where
  navigate : Option String
  contentUpdate : Option String
deriving DecidableEq

/-- The inline error panel the menu-item handler writes into the content
area from its catch block. -/
def moduleErrorDiv (msg : String) : String :=
  "<div class=\"error\">No se pudo cargar el módulo: " ++ msg ++ "</div>"

/-- The menu-item click handler of `admin_index.js` (fetch/then/catch
chain): a 401 status navigates to `/admin/login` and throws
`"No autorizado"`, which the catch block deliberately does not render; any
other non-ok status throws `"Error loading module"`, rendered as an inline
error panel; an ok status replaces the content area with the response text;
a rejected fetch reaches the catch block with the rejection message. -/
def moduleFetch : FetchOutcome → ModuleResult
  | .response status body =>
      if status = 401 then { navigate := some adminLoginPath, contentUpdate := none }
      else if respOk status then { navigate := none, contentUpdate := some body }
      else { navigate := none, contentUpdate := some (moduleErrorDiv "Error loading module") }
  | .reject msg =>
      if msg = "No autorizado" then { navigate := none, contentUpdate := none }
      else { navigate := none, contentUpdate := some (moduleErrorDiv msg) }

/-- The logout button handler of `admin_index.js`: posts to `/admin/logout`
and assigns `window.location.href = "/admin/login"` in both the `then`
branch (any resolved response, whatever its status) and the `catch`
branch (rejected fetch). -/
def logoutNavigate : FetchOutcome → Option String
  | .response _ _ => some adminLoginPath
  | .reject _ => some adminLoginPath

/-- State of the account modal of `header.js`: the inner HTML of
`#modal-content`, the presence of the `modal-large` and `modal-small`
classes on it, and the presence of the `hidden` class on `#modal`. -/
structure ModalState where
  content : String
  large : Bool
  small : Bool
  hidden : Bool
deriving DecidableEq

/-- The close-affordance markup that `addCloseButton` of `header.js`
puts in front of every content it wraps (exact template-literal text). -/
def closeMarkup : String :=
  "\n        <div class=\"modal-close\" id=\"modal-close\">✕</div>\n        "

/-- `addCloseButton` of `header.js`: wraps content with the close control. -/
def addCloseButton (content : String) : String :=
  closeMarkup ++ content ++ "\n      "

/-- The template-literal argument of the `modalInicial` initializer in
`header.js`: the default two-option account menu. -/
def menuMarkup : String :=
  "\n      <h2 class=\"modal-titulo\">Mi cuenta</h2>\n      <div class=\"modal-opciones\">\n        <button class=\"btn-modal-primary\" id=\"btn-register\">Registrarse</button>\n        <button class=\"btn-modal-outline\" id=\"btn-login\">Iniciar sesión</button>\n      </div>\n    "

/-- `modalInicial` of `header.js`: the default menu wrapped with the close
affordance. -/
def modalInicial : String := addCloseButton menuMarkup

/-- `resetModal` of `header.js`: restores the default content, removes
`modal-large`, adds `modal-small`. -/
def resetModal (s : ModalState) : ModalState :=
  { s with content := modalInicial, large := false, small := true }

/-- `showModal` of `header.js`: resets, then removes the `hidden` class. -/
def showModal (s : ModalState) : ModalState :=
  { resetModal s with hidden := false }

/-- `hideModal` of `header.js`: adds the `hidden` class, then resets. -/
def hideModal (s : ModalState) : ModalState :=
  resetModal { s with hidden := true }

/-- The fixed inline error markup both catch blocks of the `modal-content`
click handler in `header.js` wrap with the close affordance. -/
def formErrorMarkup : String :=
  "<p style=\"color:#c00\">Error cargando formulario.</p>"

/-- The register branch of the `modal-content` click handler in
`header.js` (`btn-register` / `go-register`): on an ok response the content
becomes the wrapped fetched text, `modal-large` is added and `modal-small`
removed; on a non-ok response or a rejected fetch the catch block writes the
wrapped fixed error markup and touches nothing else. -/
def registerLoad (s : ModalState) : FetchOutcome → ModalState
  | .response status body =>
      if respOk status then
        { s with content := addCloseButton body, large := true, small := false }
      else
        { s with content := addCloseButton formErrorMarkup }
  | .reject _ => { s with content := addCloseButton formErrorMarkup }

/-- The login branch of the `modal-content` click handler in `header.js`
(`btn-login` / `go-login`): as the register branch, but `modal-large` is
removed and `modal-small` added on success. -/
def loginLoad (s : ModalState) : FetchOutcome → ModalState
  | .response status body =>
      if respOk status then
        { s with content := addCloseButton body, large := false, small := true }
      else
        { s with content := addCloseButton formErrorMarkup }
  | .reject _ => { s with content := addCloseButton formErrorMarkup }

/-- The operations `header.js` itself performs on the account modal. -/
inductive ModalOp where
  | showOp
  | hideOp
  | registerClick (o : FetchOutcome)
  | loginClick (o : FetchOutcome)

/-- Dispatch of a modal operation of `header.js` onto the modal state. -/
def applyOp : ModalOp → ModalState → ModalState
  | .showOp, s => showModal s
  | .hideOp, s => hideModal s
  | .registerClick o, s => registerLoad s o
  | .loginClick o, s => loginLoad s o

/-- The registration-success path of `register.js` (submit handler, after a
successful POST): `document.getElementById('modal').classList.add('hidden')`
— it hides the same modal element without resetting its content. -/
def registerSubmitHide (s : ModalState) : ModalState :=
  { s with hidden := true }

/-- A fetch outcome the account-flow branches treat as failure: a non-ok
status or a rejected promise. -/
def fetchFailed : FetchOutcome → Bool
  | .response status _ => !respOk status
  | .reject _ => true

/-- One attribute of a script element (name/value pair). -/
structure ScriptAttr where
  name : String
  value : String
deriving DecidableEq

/-- A script element found in a freshly inserted container: its attribute
list, its `src` property (the empty string when absent — `oldScript.src` is
falsy exactly then) and its text content. -/
structure ScriptElem where
  attributes : List ScriptAttr
  src : String
  textContent : String
deriving DecidableEq

/-- The replacement script element `executeScripts` builds with
`document.createElement("script")`: a script-inserted element starts with
its `async` property true (force-async) and empty text. -/
structure NewScriptElem where
  attributes : List ScriptAttr
  src : String
  async : Bool
  textContent : String
deriving DecidableEq

/-- What `executeScripts` does with one re-built script element: append it
to `document.head` (external), or append it to `document.body` and remove
it right after execution (inline, one-shot). -/
inductive ScriptAction where
  | appendHead (e : NewScriptElem)
  | runInlineInBody (e : NewScriptElem)
deriving DecidableEq

/-- Per-script body of `executeScripts` in `admin_index.js`: copy every
attribute onto a fresh script element; if the original has a `src`, assign
the same `src`, set `async = false`, and append the element to the document
head; otherwise copy the text content, append to the body and remove it
(execution is guarded by try/catch so a failure never escapes). -/
def processScript (old : ScriptElem) : ScriptAction :=
  if old.src ≠ "" then
    .appendHead { attributes := old.attributes, src := old.src, async := false, textContent := "" }
  else
    .runInlineInBody
      { attributes := old.attributes, src := "", async := true, textContent := old.textContent }

/-- `executeScripts` of `admin_index.js`: processes every script element of
the container, in document order. -/
def executeScripts (scripts : List ScriptElem) : List ScriptAction :=
  scripts.map processScript

/-- JavaScript whitespace stripped by `parseInt` before parsing. -/
def isJsSpace (c : Char) : Bool :=
  c = ' ' ∨ c = '\t' ∨ c = '\n' ∨ c = '\r' ∨ c = '\x0b' ∨ c = '\x0c'

/-- Decimal digit value of a character, if any. -/
def decDigit (c : Char) : Option Nat :=
  if '0' ≤ c ∧ c ≤ '9' then some (c.toNat - '0'.toNat) else none

/-- Hexadecimal digit value of a character, if any. -/
def hexDigit (c : Char) : Option Nat :=
  if '0' ≤ c ∧ c ≤ '9' then some (c.toNat - '0'.toNat)
  else if 'a' ≤ c ∧ c ≤ 'f' then some (c.toNat - 'a'.toNat + 10)
  else if 'A' ≤ c ∧ c ≤ 'F' then some (c.toNat - 'A'.toNat + 10)
  else none

/-- Reads the longest leading run of digits under `f`; `none` (NaN) when
the run is empty. -/
def parseDigits (f : Char → Option Nat) (base : Nat) (cs : List Char) : Option Nat :=
  let ds := cs.takeWhile fun c => (f c).isSome
  if ds.isEmpty then none
  else some (ds.foldl (fun acc c => acc * base + (f c).getD 0) 0)

/-- JavaScript `parseInt(s)` with no radix argument: skip leading
whitespace, read an optional sign, then either a `0x`/`0X` hexadecimal
literal or a leading run of decimal digits; `none` models `NaN`. -/
def parseIntJS (s : String) : Option Int :=
  let cs := s.toList.dropWhile isJsSpace
  let signed : Int × List Char :=
    match cs with
    | '-' :: rest => (-1, rest)
    | '+' :: rest => (1, rest)
    | _ => (1, cs)
  match signed.2 with
  | '0' :: 'x' :: rest => (parseDigits hexDigit 16 rest).map fun n => signed.1 * n
  | '0' :: 'X' :: rest => (parseDigits hexDigit 16 rest).map fun n => signed.1 * n
  | rest => (parseDigits decDigit 10 rest).map fun n => signed.1 * n

/-- JavaScript `x < y` where `x` may be `NaN` (`none`): every comparison
with `NaN` is false. -/
def jsLt (x : Option Int) (y : Int) : Bool :=
  match x with
  | none => false
  | some v => decide (v < y)

/-- Outcome of the cart-add submit handler guard of the product page
controller: either the alert path (no network call) or the try block,
carrying the quantity that goes into the cart detail (`none` = NaN). -/
inductive SubmitOutcome where
  | rejected
  | proceed (cantidad : Option Int)
deriving DecidableEq

/-- The submit handler of `configurarFormulario` (product page): parses the
quantity input with `parseInt`, alerts and returns when `cantidad < 1`,
otherwise continues into the try block that issues the cart API calls. -/
def cartSubmit (value : String) : SubmitOutcome :=
  let cantidad := parseIntJS value
  if jsLt cantidad 1 then .rejected else .proceed cantidad

/-- The first network call the submit handler's try block issues
unconditionally once reached; the rejected path issues none. -/
def firstNetworkCall : SubmitOutcome → Option String
  | .rejected => none
  | .proceed _ => some "/api/v1/carritos/cliente/1"

/-- A DOM element as far as the password-check indicator logic of
`register.js` observes it: id, text content and class name. -/
structure Elem where
  id : String
  text : String
  className : String
deriving DecidableEq

/-- The id of the password-check indicator element. -/
def mensajeId : String := "mensaje-contrasena"

/-- `document.getElementById(...).remove()`: removes the first element
with the given id, in document order, when one exists. -/
def removeFirstById (i : String) : List Elem → List Elem
  | [] => []
  | e :: rest => if e.id = i then rest else e :: removeFirstById i rest

/-- The indicator element `validarContrasenas` creates: the match message
and class when the two values coincide, the mismatch ones otherwise. -/
def mensajeElem (contrasena confirmar : String) : Elem :=
  if contrasena = confirmar then
    { id := mensajeId, text := "✓ Las contraseñas coinciden", className := "password-match" }
  else
    { id := mensajeId, text := "✗ Las contraseñas no coinciden", className := "password-mismatch" }

/-- `validarContrasenas` of `register.js`, acting on the sibling region of
the confirmation input (a list of elements in document order): any previous
indicator is removed first; then, when both fields are non-empty (the JS
truthiness test), a fresh indicator is appended. -/
def validarContrasenas (contrasena confirmar : String) (doc : List Elem) : List Elem :=
  let cleaned := removeFirstById mensajeId doc
  if contrasena ≠ "" ∧ confirmar ≠ "" then cleaned ++ [mensajeElem contrasena confirmar]
  else cleaned

/-- Number of elements carrying a given id. -/
def countId (i : String) (doc : List Elem) : Nat :=
  (doc.filter fun e => e.id = i).length

/-- What one 30 ms poll of `waitForHeader` observes: presence of each of
the six required DOM elements. -/
structure HeaderProbe where
  headerEl : Bool
  searchBtn : Bool
  searchInput : Bool
  cuenta : Bool
  modal : Bool
  modalContent : Bool

/-- The conjunction `waitForHeader` tests: all six elements present. -/
def allFound (p : HeaderProbe) : Bool :=
  p.headerEl && p.searchBtn && p.searchInput && p.cuenta && p.modal && p.modalContent

/-- Milliseconds elapsed (`Date.now() - start`) when the k-th interval
tick fires: `setInterval(..., 30)` fires first after 30 ms. -/
def elapsedAt (k : Nat) : Nat := 30 * (k + 1)

/-- How the `waitForHeader` promise settles: resolved at the tick that
found all elements, or rejected at the tick that saw the timeout
exceeded. -/
inductive WaitResult where
  | resolved (tick : Nat)
  | rejectedTimeout (tick : Nat)
deriving DecidableEq

/-- The interval body of `waitForHeader`, iterated over poll ticks with
explicit fuel: resolve when all elements are found, else reject when the
elapsed time strictly exceeds the timeout, else keep polling.  `none` is
fuel exhaustion, shown below never to occur for the actual timeout. -/
def waitPoll (env : Nat → HeaderProbe) (timeout : Nat) : Nat → Nat → Option WaitResult
  | 0, _ => none
  | fuel + 1, k =>
      if allFound (env k) then some (.resolved k)
      else if timeout < elapsedAt k then some (.rejectedTimeout k)
      else waitPoll env timeout fuel (k + 1)

/-- `waitForHeader` of `header.js` with its default 3000 ms timeout: the
last tick that can still keep polling is tick 99 (elapsed 3000 ms), so
3000/30 + 2 ticks of fuel always suffice. -/
def waitForHeader (env : Nat → HeaderProbe) : Option WaitResult :=
  waitPoll env 3000 (3000 / 30 + 2) 0

/-- The event listeners `initHeader` binds after `waitForHeader`
resolves. -/
def headerHandlers : List String :=
  ["cuenta:click", "modal:click", "modal-content:click", "btn-search:click",
   "input-busqueda:keydown"]

/-- `initHeader` of `header.js`: awaits `waitForHeader`; on rejection it
logs the error and returns before binding any listener, so none are
bound. -/
def initHeader (env : Nat → HeaderProbe) : List String :=
  match waitForHeader env with
  | some (.resolved _) => headerHandlers
  | _ => []

/-- Account-modal state at page load: the server-rendered markup already
holds the default menu, the modal is hidden and sized small. -/
def pageStart : ModalState :=
  { content := modalInicial, large := false, small := true, hidden := true }

/-- The modal state after opening the account menu and loading the
registration fragment successfully: register form shown, modal visible. -/
def regFormState : ModalState :=
  registerLoad (showModal pageStart) (.response 200 "<form id=\"form-registro\"></form>")

/-- A concrete externally-sourced script element as it occurs in an admin
module fragment. -/
def extScript : ScriptElem :=
  { attributes := [{ name := "src", value := "/static/js/user.js" }],
    src := "/static/js/user.js", textContent := "" }

/-- A poll observation with all six header elements present. -/
def probeAll : HeaderProbe :=
  { headerEl := true, searchBtn := true, searchInput := true,
    cuenta := true, modal := true, modalContent := true }

/-- A poll observation with all six header elements missing. -/
def probeNone : HeaderProbe :=
  { headerEl := false, searchBtn := false, searchInput := false,
    cuenta := false, modal := false, modalContent := false }

/-- Helper: removing the first indicator occurrence lowers the count by
exactly one (truncated at zero when none is present). -/
theorem countId_removeFirstById (i : String) (doc : List Elem) :
    countId i (removeFirstById i doc) = countId i doc - 1 := by
  induction doc with
  | nil => rfl
  | cons e rest ih =>
      by_cases he : e.id = i
      · simp [removeFirstById, countId, he, List.filter]
      · simp only [removeFirstById, if_neg he]
        simp only [countId, List.filter, decide_eq_true_eq] at ih ⊢
        rw [decide_eq_false he]
        simpa using ih

/-- Helper: the indicator count distributes over appending. -/
theorem countId_append (i : String) (a b : List Elem) :
    countId i (a ++ b) = countId i a + countId i b := by
  simp [countId, List.filter_append]

/-- Helper: with fuel past tick 100 still available, the poll loop always
settles — from tick 100 on, the timeout branch fires whenever the elements
are missing. -/
theorem waitPoll_isSome (env : Nat → HeaderProbe) (fuel : Nat) :
    ∀ k : Nat, 100 < k + fuel → 1 ≤ fuel → (waitPoll env 3000 fuel k).isSome = true := by
  induction fuel with
  | zero => intro k h1 h2; omega
  | succ fuel ih =>
      intro k h1 h2
      unfold waitPoll
      by_cases hf : allFound (env k) = true
      · simp [hf]
      · by_cases ht : 3000 < elapsedAt k
        · simp [hf, ht]
        · have hk : k ≤ 99 := by simp only [elapsedAt] at ht; omega
          simp only [hf, ht, if_false, if_neg ht, Bool.not_eq_true] at *
          simp only [Bool.false_eq_true, if_false, if_neg ht]
          exact ih (k + 1) (by omega) (by omega)

/-- Helper: if the elements are first all present at tick `k + d ≤ 100` and
absent at every earlier tick from `k` on, the poll loop started at tick `k`
resolves exactly there. -/
theorem waitPoll_resolves (env : Nat → HeaderProbe) :
    ∀ (d fuel k : Nat), d < fuel → k + d ≤ 100 →
      (∀ j, j < d → allFound (env (k + j)) = false) →
      allFound (env (k + d)) = true →
      waitPoll env 3000 fuel k = some (.resolved (k + d)) := by
  intro d
  induction d with
  | zero =>
      intro fuel k hfuel _ _ hfound
      match fuel, hfuel with
      | fuel + 1, _ =>
        unfold waitPoll
        simp only [Nat.add_zero] at hfound
        simp [hfound]
  | succ d ih =>
      intro fuel k hfuel hle hmiss hfound
      match fuel, hfuel with
      | fuel + 1, hfuel =>
        unfold waitPoll
        have h0 : allFound (env k) = false := by simpa using hmiss 0 (Nat.succ_pos d)
        have hk : k ≤ 99 := by omega
        have ht : ¬3000 < elapsedAt k := by simp only [elapsedAt]; omega
        have hrec := ih fuel (k + 1) (by omega) (by omega)
          (fun j hj => by
            have := hmiss (j + 1) (by omega)
            simpa [Nat.add_comm, Nat.add_assoc, Nat.add_left_comm] using this)
          (by
            have : k + 1 + d = k + (d + 1) := by omega
            rw [this]; exact hfound)
        rw [h0]
        simp only [Bool.false_eq_true, if_false, if_neg ht]
        rw [hrec]
        congr 1
        simp only [WaitResult.resolved.injEq]
        omega

/-- Helper: when the elements are missing at every tick up to 100, the
poll loop started at tick `k ≤ 100` rejects at tick 100 (elapsed 3030 ms,
the first tick strictly past the 3000 ms timeout). -/
theorem waitPoll_rejects (env : Nat → HeaderProbe) :
    ∀ (fuel k : Nat), 100 - k < fuel → k ≤ 100 →
      (∀ j, k ≤ j → j ≤ 100 → allFound (env j) = false) →
      waitPoll env 3000 fuel k = some (.rejectedTimeout 100) := by
  intro fuel
  induction fuel with
  | zero => intro k h1; omega
  | succ fuel ih =>
      intro k h1 h2 hmiss
      unfold waitPoll
      have h0 : allFound (env k) = false := hmiss k (Nat.le_refl k) h2
      rw [h0]
      simp only [Bool.false_eq_true, if_false]
      by_cases hk : k = 100
      · subst hk
        have : 3000 < elapsedAt 100 := by simp [elapsedAt]
        simp [this]
      · have hk99 : k ≤ 99 := by omega
        have ht : ¬3000 < elapsedAt k := by simp only [elapsedAt]; omega
        rw [if_neg ht]
        exact ih (k + 1) (by omega) (by omega) (fun j hj1 hj2 => hmiss j (by omega) hj2)

/-- C1 (counterexample): a response with status 500 to the initial session
check also navigates to `/admin/login`, so it is not true that no status
code other than 401 causes that redirect. -/
theorem C1_counterexample :
    checkSession (.response 500 "") = some adminLoginPath ∧ (500 : Nat) ≠ 401 := by
  constructor
  · rfl
  · decide

/-- C1 (amended): a 401 on the initial session check and a 401 on any
later module fetch both navigate to the same target `/admin/login`; for
module fetches no other status code causes the redirect; the initial
session check, however, redirects on every non-2xx status and on network
failure, not only on 401. -/
theorem C1_redirect_semantics (st : Nat) (body msg : String) :
    checkSession (.response 401 body) = some adminLoginPath
  ∧ (moduleFetch (.response 401 body)).navigate = some adminLoginPath
  ∧ (moduleFetch (.response st body)).navigate =
      (if st = 401 then some adminLoginPath else none)
  ∧ checkSession (.response st body) =
      (if respOk st then none else some adminLoginPath)
  ∧ checkSession (.reject msg) = some adminLoginPath := by
  refine ⟨rfl, rfl, ?_, rfl, rfl⟩
  by_cases h : st = 401
  · subst h; rfl
  · simp only [moduleFetch, if_neg h]
    by_cases hok : respOk st = true
    · simp [hok]
    · simp [hok]

/-- C5: for every outcome of the logout POST — a resolved response of any
status, or a rejected fetch — the admin shell navigates to `/admin/login`;
no other result is possible. -/
theorem C5_logout_always_redirects (o : FetchOutcome) :
    logoutNavigate o = some adminLoginPath := by
  cases o <;> rfl

/-- C2 (counterexample): the registration-success path of `register.js`
transitions the account modal's visibility to hidden while leaving the
register-form content in place, so not every transition to hidden resets
the content to the default menu. -/
theorem C2_counterexample :
    regFormState.hidden = false
  ∧ (registerSubmitHide regFormState).hidden = true
  ∧ (registerSubmitHide regFormState).content ≠ modalInicial
  ∧ registerSubmitHide regFormState ≠ hideModal regFormState := by
  refine ⟨rfl, rfl, ?_, ?_⟩ <;> decide

/-- C2 (amended): hiding the modal through the controller's `hideModal`
is a constant operation — from any state, after any opened content, it
yields the same state with the default two-option menu, small size and the
hidden flag set; every `header.js` modal operation that leaves the modal
hidden either started hidden or is exactly that reset; but the register
form's submit-success path also hides the modal and leaves its content
unchanged. -/
theorem C2_hide_reset_law (s t : ModalState) (op : ModalOp) :
    hideModal s = hideModal t
  ∧ (∀ x y : FetchOutcome, hideModal (registerLoad s x) = hideModal (loginLoad t y))
  ∧ (hideModal s).content = modalInicial
  ∧ (hideModal s).small = true
  ∧ (hideModal s).large = false
  ∧ (hideModal s).hidden = true
  ∧ ((applyOp op s).hidden = true → s.hidden = true ∨ applyOp op s = hideModal s)
  ∧ (registerSubmitHide s).content = s.content := by
  refine ⟨rfl, fun x y => rfl, rfl, rfl, rfl, rfl, ?_, rfl⟩
  intro hh
  cases op with
  | showOp => simp [applyOp, showModal, resetModal] at hh
  | hideOp => exact Or.inr rfl
  | registerClick o =>
      left
      cases o with
      | response st body =>
          by_cases hok : respOk st = true <;>
            simpa [applyOp, registerLoad, hok] using hh
      | reject m => simpa [applyOp, registerLoad] using hh
  | loginClick o =>
      left
      cases o with
      | response st body =>
          by_cases hok : respOk st = true <;>
            simpa [applyOp, loginLoad, hok] using hh
      | reject m => simpa [applyOp, loginLoad] using hh

/-- C2 (witness): the amended law applied at the page-load state and the
hide operation. -/
theorem C2_hide_reset_law_witness :
    (hideModal pageStart).content = modalInicial
  ∧ (pageStart.hidden = true ∨ applyOp .hideOp pageStart = hideModal pageStart) :=
  ⟨(C2_hide_reset_law pageStart pageStart .hideOp).2.2.1,
   (C2_hide_reset_law pageStart pageStart .hideOp).2.2.2.2.2.2.1 rfl⟩

/-- C3 (counterexample): after a successful load of the registration
fragment, the modal content is not exactly the fetched text — the close
affordance is prepended around it. -/
theorem C3_counterexample :
    respOk 200 = true
  ∧ (registerLoad pageStart (.response 200 "<p>hola</p>")).content ≠ "<p>hola</p>" := by
  refine ⟨rfl, ?_⟩
  decide

/-- C3 (amended): on a 2xx response the admin content area receives exactly
the fetched text, while the account modal receives the fetched text wrapped
with the close affordance; the size flag always matches the requested mode
(REGISTER = large, LOGIN = small). -/
theorem C3_content_and_size (s : ModalState) (st : Nat) (body : String)
    (h : respOk st = true) :
    (moduleFetch (.response st body)).contentUpdate = some body
  ∧ (registerLoad s (.response st body)).content = addCloseButton body
  ∧ (registerLoad s (.response st body)).large = true
  ∧ (registerLoad s (.response st body)).small = false
  ∧ (loginLoad s (.response st body)).content = addCloseButton body
  ∧ (loginLoad s (.response st body)).large = false
  ∧ (loginLoad s (.response st body)).small = true := by
  have h401 : st ≠ 401 := by
    intro he; subst he; simp [respOk] at h
  refine ⟨?_, ?_, ?_, ?_, ?_, ?_, ?_⟩ <;>
    simp [moduleFetch, registerLoad, loginLoad, h, h401]

/-- C3 (witness): the amended statement at status 200 and a concrete
fragment. -/
theorem C3_content_and_size_witness :
    (moduleFetch (.response 200 "<p>x</p>")).contentUpdate = some "<p>x</p>"
  ∧ (registerLoad pageStart (.response 200 "<p>x</p>")).content = addCloseButton "<p>x</p>"
  ∧ (registerLoad pageStart (.response 200 "<p>x</p>")).large = true
  ∧ (registerLoad pageStart (.response 200 "<p>x</p>")).small = false
  ∧ (loginLoad pageStart (.response 200 "<p>x</p>")).content = addCloseButton "<p>x</p>"
  ∧ (loginLoad pageStart (.response 200 "<p>x</p>")).large = false
  ∧ (loginLoad pageStart (.response 200 "<p>x</p>")).small = true :=
  C3_content_and_size pageStart 200 "<p>x</p>" rfl

/-- C4 (counterexample): for an externally-sourced script, the re-built
element appended to the head has its `async` property set to `false`, so it
is not marked non-blocking-order. -/
theorem C4_counterexample :
    processScript extScript =
      ScriptAction.appendHead
        { attributes := extScript.attributes, src := extScript.src,
          async := false, textContent := "" }
  ∧ ({ attributes := extScript.attributes, src := extScript.src,
       async := false, textContent := "" } : NewScriptElem).async ≠ true := by
  refine ⟨?_, ?_⟩ <;> decide

/-- C4 (amended): for every script element with an external src found
during re-execution, a new script element carrying all of the original
element's attributes and the original src is appended to the document head
with `async` set to `false`, which requests in-order execution across
several external scripts rather than leaving load order unguaranteed. -/
theorem C4_external_scripts (ss : List ScriptElem) (s : ScriptElem)
    (hm : s ∈ ss) (h : s.src ≠ "") :
    processScript s =
      ScriptAction.appendHead
        { attributes := s.attributes, src := s.src, async := false, textContent := "" }
  ∧ ScriptAction.appendHead
      { attributes := s.attributes, src := s.src, async := false, textContent := "" }
      ∈ executeScripts ss := by
  have hp : processScript s =
      ScriptAction.appendHead
        { attributes := s.attributes, src := s.src, async := false, textContent := "" } := by
    simp [processScript, h]
  refine ⟨hp, ?_⟩
  unfold executeScripts
  exact hp ▸ List.mem_map_of_mem processScript hm

/-- C4 (witness): the amended statement at a concrete external script. -/
theorem C4_external_scripts_witness :
    processScript extScript =
      ScriptAction.appendHead
        { attributes := extScript.attributes, src := extScript.src,
          async := false, textContent := "" }
  ∧ ScriptAction.appendHead
      { attributes := extScript.attributes, src := extScript.src,
        async := false, textContent := "" }
      ∈ executeScripts [extScript] :=
  C4_external_scripts [extScript] extScript (List.mem_singleton.mpr rfl) (by decide)

/-- C6: when the fragment fetch of either account-flow transition rejects
or returns a non-2xx status, the modal content becomes the fixed inline
error message wrapped with the close affordance (which the wrapping places
literally in front of it), the size and visibility flags are untouched, and
re-triggering either transition behaves exactly as from the pre-failure
state. -/
theorem C6_failure_tolerant (s : ModalState) (o o2 : FetchOutcome)
    (hf : fetchFailed o = true) :
    (registerLoad s o).content = addCloseButton formErrorMarkup
  ∧ (loginLoad s o).content = addCloseButton formErrorMarkup
  ∧ addCloseButton formErrorMarkup = closeMarkup ++ (formErrorMarkup ++ "\n      ")
  ∧ (registerLoad s o).large = s.large
  ∧ (registerLoad s o).small = s.small
  ∧ (registerLoad s o).hidden = s.hidden
  ∧ (loginLoad s o).large = s.large
  ∧ (loginLoad s o).small = s.small
  ∧ (loginLoad s o).hidden = s.hidden
  ∧ registerLoad (registerLoad s o) o2 = registerLoad s o2
  ∧ loginLoad (loginLoad s o) o2 = loginLoad s o2 := by
  have hre : registerLoad s o = { s with content := addCloseButton formErrorMarkup } := by
    cases o with
    | response st body =>
        have hok : respOk st = false := by
          simpa [fetchFailed] using hf
        simp [registerLoad, hok]
    | reject m => rfl
  have hlo : loginLoad s o = { s with content := addCloseButton formErrorMarkup } := by
    cases o with
    | response st body =>
        have hok : respOk st = false := by
          simpa [fetchFailed] using hf
        simp [loginLoad, hok]
    | reject m => rfl
  refine ⟨by rw [hre], by rw [hlo], ?_, by rw [hre], by rw [hre], by rw [hre],
          by rw [hlo], by rw [hlo], by rw [hlo], ?_, ?_⟩
  · simp [addCloseButton, String.append_assoc]
  · rw [hre]
    cases o2 with
    | response st body =>
        by_cases hok : respOk st = true <;> simp [registerLoad, hok]
    | reject m => rfl
  · rw [hlo]
    cases o2 with
    | response st body =>
        by_cases hok : respOk st = true <;> simp [loginLoad, hok]
    | reject m => rfl

/-- C6 (witness): a rejected fetch during the register transition, then a
successful retry. -/
theorem C6_failure_tolerant_witness :
    (registerLoad pageStart (.reject "TypeError: Failed to fetch")).content =
      addCloseButton formErrorMarkup
  ∧ registerLoad (registerLoad pageStart (.reject "TypeError: Failed to fetch"))
      (.response 200 "<form></form>") =
      registerLoad pageStart (.response 200 "<form></form>") :=
  ⟨(C6_failure_tolerant pageStart (.reject "TypeError: Failed to fetch")
      (.response 200 "<form></form>") rfl).1,
   (C6_failure_tolerant pageStart (.reject "TypeError: Failed to fetch")
      (.response 200 "<form></form>") rfl).2.2.2.2.2.2.2.2.2.1⟩

/-- C7: when the quantity input parses to an integer, a value of 0 or below
takes the alert path with no network call, and a value of at least 1
proceeds into the try block that issues the cart API calls. -/
theorem C7_quantity_guard (v : String) (n : Int) (hp : parseIntJS v = some n) :
    (n ≤ 0 → cartSubmit v = .rejected ∧ firstNetworkCall (cartSubmit v) = none)
  ∧ (1 ≤ n → cartSubmit v = .proceed (some n) ∧
       firstNetworkCall (cartSubmit v) = some "/api/v1/carritos/cliente/1") := by
  constructor
  · intro hle
    have hlt : jsLt (parseIntJS v) 1 = true := by
      rw [hp]; simp [jsLt]; omega
    have hc : cartSubmit v = .rejected := by
      simp [cartSubmit, hlt]
    exact ⟨hc, by rw [hc]; rfl⟩
  · intro hge
    have hlt : jsLt (parseIntJS v) 1 = false := by
      rw [hp]; simp [jsLt]; omega
    have hc : cartSubmit v = .proceed (some n) := by
      rw [cartSubmit, hlt, hp]
      rfl
    exact ⟨hc, by rw [hc]; rfl⟩

/-- C7 (witness): quantity "0" is rejected with no network call; quantity
"3" proceeds. -/
theorem C7_quantity_guard_witness :
    (cartSubmit "0" = .rejected ∧ firstNetworkCall (cartSubmit "0") = none)
  ∧ (cartSubmit "3" = .proceed (some 3) ∧
       firstNetworkCall (cartSubmit "3") = some "/api/v1/carritos/cliente/1") :=
  ⟨(C7_quantity_guard "0" 0 (by decide)).1 (by decide),
   (C7_quantity_guard "3" 3 (by decide)).2 (by decide)⟩

/-- C9: the empty quantity string parses to NaN, the guard `cantidad < 1`
is false on NaN, so the submission is not rejected and the handler proceeds
to the cart API calls with a NaN quantity. -/
theorem C9_nan_bypasses_guard :
    parseIntJS "" = none
  ∧ cartSubmit "" = .proceed none
  ∧ firstNetworkCall (cartSubmit "") = some "/api/v1/carritos/cliente/1" := by
  refine ⟨rfl, ?_, ?_⟩ <;> rfl

/-- C8: each run of the live password check first removes any previous
indicator and only then appends a fresh one, so a document region holding
at most one indicator still holds at most one afterwards; with both fields
non-empty the appended indicator is the match element when the values
coincide and the mismatch element otherwise. -/
theorem C8_indicator_unique (p c : String) (doc : List Elem)
    (h : countId mensajeId doc ≤ 1) :
    countId mensajeId (validarContrasenas p c doc) ≤ 1
  ∧ (p ≠ "" → c ≠ "" → p = c →
      validarContrasenas p c doc = removeFirstById mensajeId doc ++
        [{ id := mensajeId, text := "✓ Las contraseñas coinciden",
           className := "password-match" }])
  ∧ (p ≠ "" → c ≠ "" → p ≠ c →
      validarContrasenas p c doc = removeFirstById mensajeId doc ++
        [{ id := mensajeId, text := "✗ Las contraseñas no coinciden",
           className := "password-mismatch" }])
  ∧ countId mensajeId (removeFirstById mensajeId doc) = countId mensajeId doc - 1 := by
  have hrem := countId_removeFirstById mensajeId doc
  refine ⟨?_, ?_, ?_, hrem⟩
  · unfold validarContrasenas
    by_cases hb : p ≠ "" ∧ c ≠ ""
    · rw [if_pos hb, countId_append, hrem]
      have hone : countId mensajeId [mensajeElem p c] = 1 := by
        unfold mensajeElem
        by_cases he : p = c <;> simp [he, countId, List.filter, mensajeId]
      rw [hone]
      omega
    · rw [if_neg hb, hrem]
      omega
  · intro hp hc he
    unfold validarContrasenas
    rw [if_pos ⟨hp, hc⟩]
    simp [mensajeElem, he]
  · intro hp hc he
    unfold validarContrasenas
    rw [if_pos ⟨hp, hc⟩]
    simp [mensajeElem, he]

/-- C8 (witness): equal inputs over an empty sibling region render exactly
one match indicator; unequal non-empty inputs the mismatch indicator. -/
theorem C8_indicator_unique_witness :
    countId mensajeId (validarContrasenas "abc123" "abc123" []) ≤ 1
  ∧ validarContrasenas "abc123" "abc123" [] = removeFirstById mensajeId [] ++
      [{ id := mensajeId, text := "✓ Las contraseñas coinciden",
         className := "password-match" }]
  ∧ validarContrasenas "abc123" "abc124" [] = removeFirstById mensajeId [] ++
      [{ id := mensajeId, text := "✗ Las contraseñas no coinciden",
         className := "password-mismatch" }] :=
  ⟨(C8_indicator_unique "abc123" "abc123" [] (by decide)).1,
   (C8_indicator_unique "abc123" "abc123" [] (by decide)).2.1
     (by decide) (by decide) rfl,
   (C8_indicator_unique "abc123" "abc124" [] (by decide)).2.2.1
     (by decide) (by decide) (by decide)⟩

/-- C10: the header-initialization poll always settles; it resolves at the
first 30 ms tick (up to tick 100) that finds all six elements, and when no
tick up to 100 finds them it rejects at tick 100, the first tick whose
elapsed time (3030 ms) strictly exceeds the 3000 ms timeout; on rejection
`initHeader` binds no event handlers. -/
theorem C10_wait_settles (env : Nat → HeaderProbe) (k : Nat)
    (hk : k ≤ 100) (hfound : allFound (env k) = true)
    (hfirst : ∀ j, j < k → allFound (env j) = false) :
    (∀ e3 : Nat → HeaderProbe, (waitForHeader e3).isSome = true)
  ∧ waitForHeader env = some (.resolved k)
  ∧ initHeader env = headerHandlers
  ∧ elapsedAt 100 = 3030
  ∧ (∀ e2 : Nat → HeaderProbe, (∀ j, j ≤ 100 → allFound (e2 j) = false) →
       waitForHeader e2 = some (.rejectedTimeout 100) ∧ initHeader e2 = []) := by
  have hfuel : (3000 / 30 + 2 : Nat) = 102 := by norm_num
  have hres : waitForHeader env = some (.resolved k) := by
    unfold waitForHeader
    rw [hfuel]
    have := waitPoll_resolves env k 102 0 (by omega) (by omega)
      (fun j hj => by simpa using hfirst j hj)
      (by simpa using hfound)
    simpa using this
  refine ⟨?_, hres, ?_, rfl, ?_⟩
  · intro e3
    unfold waitForHeader
    rw [hfuel]
    exact waitPoll_isSome e3 102 0 (by omega) (by omega)
  · unfold initHeader
    rw [hres]
  · intro e2 hmiss
    have hrej : waitForHeader e2 = some (.rejectedTimeout 100) := by
      unfold waitForHeader
      rw [hfuel]
      exact waitPoll_rejects e2 102 0 (by omega) (by omega)
        (fun j _ hj2 => hmiss j hj2)
    refine ⟨hrej, ?_⟩
    unfold initHeader
    rw [hrej]

/-- C10 (witness): an environment where everything is present from the
first tick resolves at tick 0; one where nothing ever appears rejects at
tick 100, and its `initHeader` binds no handlers. -/
theorem C10_wait_settles_witness :
    waitForHeader (fun _ => probeAll) = some (.resolved 0)
  ∧ waitForHeader (fun _ => probeNone) = some (.rejectedTimeout 100)
  ∧ initHeader (fun _ => probeNone) = [] :=
  have h := C10_wait_settles (fun _ => probeAll) 0 (by omega) rfl
    (fun j hj => absurd hj (Nat.not_lt_zero j))
  ⟨h.2.1,
   (h.2.2.2.2 (fun _ => probeNone) (fun _ _ => rfl)).1,
   (h.2.2.2.2 (fun _ => probeNone) (fun _ _ => rfl)).2⟩

end Tiendo
